import Mathlib

/-!
Shallow embedding of the error taxonomy and error-rendering middleware of an
Express/TypeScript backend template.

The taxonomy is the class hierarchy rooted at `AppError`
(fields `statusCode`, `isOperational`, `originalError`, plus the inherited
`message`, `name` and `stack`), with eight subclasses fixing a status code and
a default message each.

The renderer is `ErrorMiddleware.errorHandlerMiddleware`, which builds a
default classification from the incoming error
(`statusCode || 500`, `message || fallback`, `originalError || "Error"`),
short-circuits for `instanceof AppError`, and otherwise runs three structural
checks in sequence (name `ValidationError`, name `CastError`, numeric `code`
field equal to 11000), each overwriting the running status and message, before
emitting the generic JSON body.  `ErrorMiddleware.notFound` raises a
`NotFoundError` carrying the unmatched URL.

JavaScript erasure conventions used throughout: a property an object may lack
is an `Option`; JS truthiness of a string is non-emptiness, of a number is
being nonzero; `undefined`/`null` are `none`.
-/

/-- The parts of an Express request the middleware reads: `req.originalUrl`
and `req.url`. -/
structure Request where
  originalUrl : String
  url : String
deriving DecidableEq

/-- A runtime error value as observed by the middleware.  `isAppError` is the
result of the `instanceof AppError` test.  `statusCode`, `isOperational` and
`originalError` are the `AppError` fields (absent, i.e. `undefined`, on plain
errors); `code` and `keyValue` are the Mongo duplicate-key fields (`keyValue`
holds `Object.keys` of the offending object, in order); `errors` holds the
per-field sub-error messages of a Mongoose validation error (`none` for a
sub-error whose `message` is `undefined`); `path` is the Mongoose cast-error
field path.  The wrapped cause `originalError` is kept as its rendered string
form, since the middleware only ever forwards it opaquely. -/
structure JsError where
  isAppError : Bool
  message : String
  name : String
  statusCode : Option Nat
  isOperational : Option Bool
  originalError : Option String
  code : Option Nat
  keyValue : List String
  errors : List (Option String)
  path : Option String
  stack : String
deriving DecidableEq

/-- The JSON error-response body together with the HTTP status it is sent
with.  Fields that only some branches emit (`error`, `originalError`,
`stack`) are `Option`s; `none` means the key is absent from the body. -/
structure ErrResponse where
  status : Nat
  success : Bool
  error : Option Bool
  message : String
  originalError : Option String
  statusCode : Nat
  timestamp : String
  path : String
  stack : Option String
deriving DecidableEq

/-- `new AppError(message, statusCode, originalError)`: sets
`statusCode`, `isOperational = true` and `originalError`; `name` stays
`"Error"` (the parent class name is never overwritten) and the captured stack
trace is environment data, modelled as empty. -/
def AppError.new (message : String) (statusCode : Nat)
    (originalError : Option String) : JsError :=
  { isAppError := true
    message := message
    name := "Error"
    statusCode := some statusCode
    isOperational := some true
    originalError := originalError
    code := none
    keyValue := []
    errors := []
    path := none
    stack := "" }

/-- `new AppError(message)`: the `statusCode` parameter defaults to `500` and
`originalError` to `null`. -/
def AppError.ofMessage (message : String) : JsError :=
  AppError.new message 500 none

/-- `new BadRequestError(message, err)`: status fixed at 400. -/
def BadRequestError.new (message : String) (err : Option String) : JsError :=
  AppError.new message 400 err

/-- `new BadRequestError()`: the message defaults to "Validation failed". -/
def BadRequestError.default : JsError :=
  BadRequestError.new "Validation failed" none

/-- `new NotFoundError(message, err)`: status fixed at 404. -/
def NotFoundError.new (message : String) (err : Option String) : JsError :=
  AppError.new message 404 err

/-- `new NotFoundError()`: the message defaults to "Resource not found". -/
def NotFoundError.default : JsError :=
  NotFoundError.new "Resource not found" none

/-- `new UnauthorizedError(message, err)`: status fixed at 401. -/
def UnauthorizedError.new (message : String) (err : Option String) : JsError :=
  AppError.new message 401 err

/-- `new UnauthorizedError()`: message defaults to "Unauthorized access". -/
def UnauthorizedError.default : JsError :=
  UnauthorizedError.new "Unauthorized access" none

/-- `new ForbiddenError(message, err)`: status fixed at 403. -/
def ForbiddenError.new (message : String) (err : Option String) : JsError :=
  AppError.new message 403 err

/-- `new ForbiddenError()`: the message defaults to "Forbidden access". -/
def ForbiddenError.default : JsError :=
  ForbiddenError.new "Forbidden access" none

/-- `new ConflictError(message, err)`: status fixed at 409. -/
def ConflictError.new (message : String) (err : Option String) : JsError :=
  AppError.new message 409 err

/-- `new ConflictError()`: the message defaults to "Resource conflict". -/
def ConflictError.default : JsError :=
  ConflictError.new "Resource conflict" none

/-- `new RateLimitError(message)`: status fixed at 429, no cause parameter. -/
def RateLimitError.new (message : String) : JsError :=
  AppError.new message 429 none

/-- `new RateLimitError()`: the message defaults to "Rate limit exceeded". -/
def RateLimitError.default : JsError :=
  RateLimitError.new "Rate limit exceeded"

/-- `new ServiceUnavailableError(message)`: status fixed at 503. -/
def ServiceUnavailableError.new (message : String) : JsError :=
  AppError.new message 503 none

/-- `new ServiceUnavailableError()`: the message defaults to
"Service temporarily unavailable". -/
def ServiceUnavailableError.default : JsError :=
  ServiceUnavailableError.new "Service temporarily unavailable"

/-- `new QueueTimeoutError(message)`: status fixed at 504. -/
def QueueTimeoutError.new (message : String) : JsError :=
  AppError.new message 504 none

/-- `new QueueTimeoutError()`: the message defaults to
"504 Gateway Timeout". -/
def QueueTimeoutError.default : JsError :=
  QueueTimeoutError.new "504 Gateway Timeout"

/-- `(err as AppError).statusCode || 500`: an absent (`undefined`) or zero
(falsy) status code falls back to 500. -/
def fallbackStatus (e : JsError) : Nat :=
  match e.statusCode with
  | some n => if n = 0 then 500 else n
  | none => 500

/-- `err.message || "Something went wrong, try again later"`: an empty (falsy)
message falls back to the generic string. -/
def fallbackMessage (e : JsError) : String :=
  if e.message = "" then "Something went wrong, try again later" else e.message

/-- `(err as AppError).originalError || "Error"`: an absent or `null` cause
falls back to the string "Error". -/
def fallbackOriginalError (e : JsError) : String :=
  e.originalError.getD "Error"

/-- `req.originalUrl.replace(/^\/api/, "")`: remove the four leading
characters `/api` when the URL starts with them. -/
def stripApiPrefix (s : String) : String :=
  match s.data with
  | '/' :: 'a' :: 'p' :: 'i' :: rest => String.mk rest
  | _ => s

/-- `Object.values(validationErr.errors).map((item) => item?.message).join(",")`:
`join` renders an `undefined` entry as the empty string. -/
def validationMessage (e : JsError) : String :=
  String.intercalate "," (e.errors.map (fun o => o.getD ""))

/-- Template literal for a cast error; an `undefined` path is rendered as the
string "undefined". -/
def castMessage (e : JsError) : String :=
  "Resource not found. Invalid: " ++ e.path.getD "undefined"

/-- Template literal for a duplicate-key error: the key array renders as its
elements joined by commas. -/
def duplicateMessage (e : JsError) : String :=
  String.intercalate "," e.keyValue ++ " field has to be unique"

/-- `ErrorMiddleware.errorHandlerMiddleware(err, req, res, next)`.  `nodeEnv`
is `process.env.NODE_ENV` and `now` the ISO timestamp taken at render time.
The default classification is built first; the `instanceof AppError` branch
returns at once with the extended body (fields `error` and `originalError`
present, `/api` prefix stripped from the path); otherwise the three structural
checks each overwrite the running status and message, and the generic body is
emitted with the raw `req.url` and, in development mode only, the stack. -/
def errorHandlerMiddleware (err : JsError) (req : Request)
    (nodeEnv : String) (now : String) : ErrResponse :=
  let dStatus := fallbackStatus err
  let dMsg := fallbackMessage err
  if err.isAppError then
    { status := dStatus
      success := false
      error := some true
      message := dMsg
      originalError := some (fallbackOriginalError err)
      statusCode := dStatus
      timestamp := now
      path := stripApiPrefix req.originalUrl
      stack := none }
  else
    let s1 := if err.name = "ValidationError" then 500 else dStatus
    let m1 := if err.name = "ValidationError" then validationMessage err else dMsg
    let s2 := if err.name = "CastError" then 400 else s1
    let m2 := if err.name = "CastError" then castMessage err else m1
    let s3 := if err.code = some 11000 then 400 else s2
    let m3 := if err.code = some 11000 then duplicateMessage err else m2
    { status := s3
      success := false
      error := none
      message := m3
      originalError := none
      statusCode := s3
      timestamp := now
      path := req.url
      stack := if nodeEnv = "development" then some err.stack else none }

/-- `ErrorMiddleware.notFound(req, res, next)`: passes
`new NotFoundError("Route not found : " + req.url)` to `next` and writes no
response itself. -/
def notFound (req : Request) : JsError :=
  NotFoundError.new ("Route not found : " ++ req.url) none

/-! ## Claim theorems -/

/-- C2: for each of the nine taxonomy kinds, constructing the variant with
only a custom message yields the fixed default status for that kind
(500, 400, 404, 401, 403, 409, 429, 503, 504 respectively); the supplied
message never influences the status code. -/
theorem c2_fixed_status_per_kind (msg : String) :
    (AppError.ofMessage msg).statusCode = some 500 ∧
    (BadRequestError.new msg none).statusCode = some 400 ∧
    (NotFoundError.new msg none).statusCode = some 404 ∧
    (UnauthorizedError.new msg none).statusCode = some 401 ∧
    (ForbiddenError.new msg none).statusCode = some 403 ∧
    (ConflictError.new msg none).statusCode = some 409 ∧
    (RateLimitError.new msg).statusCode = some 429 ∧
    (ServiceUnavailableError.new msg).statusCode = some 503 ∧
    (QueueTimeoutError.new msg).statusCode = some 504 :=
  ⟨rfl, rfl, rfl, rfl, rfl, rfl, rfl, rfl, rfl⟩

/-- C3 counterexample: the claim says a QueueTimeout variant constructed with
no message argument carries the default message "Gateway Timeout"; in the
code the default is the string "504 Gateway Timeout". -/
theorem c3_counterexample :
    QueueTimeoutError.default.message = "504 Gateway Timeout" ∧
    QueueTimeoutError.default.message ≠ "Gateway Timeout" := by
  constructor
  · rfl
  · decide

/-- C3 amended: each subclass constructed with no message argument yields its
default message from the code: "Validation failed", "Resource not found",
"Unauthorized access", "Forbidden access", "Resource conflict",
"Rate limit exceeded", "Service temporarily unavailable" and
"504 Gateway Timeout" (not "Gateway Timeout"); the base Generic kind
(`AppError`) has no default message at all, its message parameter being
required. -/
theorem c3_default_messages :
    BadRequestError.default.message = "Validation failed" ∧
    NotFoundError.default.message = "Resource not found" ∧
    UnauthorizedError.default.message = "Unauthorized access" ∧
    ForbiddenError.default.message = "Forbidden access" ∧
    ConflictError.default.message = "Resource conflict" ∧
    RateLimitError.default.message = "Rate limit exceeded" ∧
    ServiceUnavailableError.default.message = "Service temporarily unavailable" ∧
    QueueTimeoutError.default.message = "504 Gateway Timeout" :=
  ⟨rfl, rfl, rfl, rfl, rfl, rfl, rfl, rfl⟩

/-- C9: every taxonomy failure, for all nine variants and all constructor
arguments, has `isOperational` set to true from construction, and the only
other operation producing a taxonomy failure (`notFound`) preserves this; no
operation of the subsystem ever sets it to false. -/
theorem c9_is_operational (msg : String) (sc : Nat) (orig : Option String)
    (req : Request) :
    (AppError.new msg sc orig).isOperational = some true ∧
    (BadRequestError.new msg orig).isOperational = some true ∧
    (NotFoundError.new msg orig).isOperational = some true ∧
    (UnauthorizedError.new msg orig).isOperational = some true ∧
    (ForbiddenError.new msg orig).isOperational = some true ∧
    (ConflictError.new msg orig).isOperational = some true ∧
    (RateLimitError.new msg).isOperational = some true ∧
    (ServiceUnavailableError.new msg).isOperational = some true ∧
    (QueueTimeoutError.new msg).isOperational = some true ∧
    (notFound req).isOperational = some true :=
  ⟨rfl, rfl, rfl, rfl, rfl, rfl, rfl, rfl, rfl, rfl⟩

/-- Helper: the notFound message is never the empty string. -/
theorem route_message_ne_empty (u : String) : "Route not found : " ++ u ≠ "" := by
  intro h
  have hlen : ("Route not found : " ++ u).length = ("" : String).length :=
    congrArg String.length h
  rw [String.length_append] at hlen
  have h18 : ("Route not found : " : String).length = 18 := rfl
  rw [h18] at hlen
  simp at hlen

/-- C1 counterexample: the claim says the renderer uses the message of an
`AppError` instance verbatim; for a taxonomy failure constructed with the
empty message (here `new NotFoundError("")`), the rendered message is the
generic fallback string, not the empty message. -/
theorem c1_counterexample :
    (NotFoundError.new "" none).message = "" ∧
    (errorHandlerMiddleware (NotFoundError.new "" none)
        { originalUrl := "/api/widgets/999", url := "/api/widgets/999" }
        "production" "t0").message = "Something went wrong, try again later" := by
  constructor
  · rfl
  · decide

/-- C1 amended: for a failure recognized as an `AppError` instance whose
message is non-empty and whose status code is nonzero (both hold for every
value the nine taxonomy constructors can produce), the renderer uses that
status and message verbatim and emits exactly the body
`success:false, error:true, message, originalError (cause or "Error"),
statusCode, timestamp, path` with a leading `/api` stripped from the original
URL, independently of every structural-recognition field; an empty message
falls back to the generic string and a zero status to 500, via the
JS `||` defaults. -/
theorem c1_taxonomy_render (err : JsError) (req : Request) (env now : String)
    (n : Nat) (happ : err.isAppError = true) (hmsg : err.message ≠ "")
    (hsc : err.statusCode = some n) (hn : n ≠ 0) :
    errorHandlerMiddleware err req env now =
      { status := n
        success := false
        error := some true
        message := err.message
        originalError := some (err.originalError.getD "Error")
        statusCode := n
        timestamp := now
        path := stripApiPrefix req.originalUrl
        stack := none } := by
  simp [errorHandlerMiddleware, fallbackStatus, fallbackMessage,
    fallbackOriginalError, happ, hmsg, hsc, hn]

/-- C1 witness: `new NotFoundError("Resource not found")` raised for
`GET /api/widgets/999` renders as status 404, the message verbatim, cause
"Error", and path `/widgets/999` with the `/api` prefix stripped. -/
theorem c1_witness :
    errorHandlerMiddleware (NotFoundError.new "Resource not found" none)
        { originalUrl := "/api/widgets/999", url := "/api/widgets/999" }
        "production" "t0" =
      { status := 404
        success := false
        error := some true
        message := "Resource not found"
        originalError := some "Error"
        statusCode := 404
        timestamp := "t0"
        path := "/widgets/999"
        stack := none } :=
  (c1_taxonomy_render (NotFoundError.new "Resource not found" none)
      { originalUrl := "/api/widgets/999", url := "/api/widgets/999" }
      "production" "t0" 404 rfl (by decide) rfl (by decide)).trans (by decide)

/-- C4: for every request whose path matched no route, the `notFound` handler
raises a NotFound failure (status 404) whose message contains the request
path, writing no response itself; rendering that failure yields a 404
response whose message contains the path. -/
theorem c4_not_found_route (req : Request) (env now : String) :
    (notFound req).statusCode = some 404 ∧
    (∃ a b, (notFound req).message = a ++ req.url ++ b) ∧
    (errorHandlerMiddleware (notFound req) req env now).status = 404 ∧
    (∃ a b,
      (errorHandlerMiddleware (notFound req) req env now).message =
        a ++ req.url ++ b) := by
  refine ⟨rfl, ⟨"Route not found : ", "", by simp [notFound, NotFoundError.new, AppError.new]⟩, ?_, ?_⟩
  · simp [errorHandlerMiddleware, notFound, NotFoundError.new, AppError.new,
      fallbackStatus, fallbackMessage, route_message_ne_empty req.url]
  · refine ⟨"Route not found : ", "", ?_⟩
    simp [errorHandlerMiddleware, notFound, NotFoundError.new, AppError.new,
      fallbackStatus, fallbackMessage, route_message_ne_empty req.url]

/-- A Mongo duplicate-key failure on the `email` field, as the driver raises
it: name `MongoServerError`, `code` 11000, `keyValue` with the offending
field, no taxonomy pedigree. -/
def emailDupError : JsError :=
  { isAppError := false
    message := "E11000 duplicate key error"
    name := "MongoServerError"
    statusCode := none
    isOperational := none
    originalError := none
    code := some 11000
    keyValue := ["email"]
    errors := []
    path := none
    stack := "MongoServerError: E11000" }

/-- A Mongoose validation failure with two named sub-errors and no other
recognizable shape. -/
def plainValidationError : JsError :=
  { isAppError := false
    message := "User validation failed"
    name := "ValidationError"
    statusCode := none
    isOperational := none
    originalError := none
    code := none
    keyValue := []
    errors := [some "Path `email` is required.", some "Path `age` is invalid."]
    path := none
    stack := "ValidationError: User validation failed" }

/-- A failure matching both the validation shape (name `ValidationError`)
and the duplicate-key shape (`code` 11000). -/
def validationDupError : JsError :=
  { isAppError := false
    message := "User validation failed"
    name := "ValidationError"
    statusCode := none
    isOperational := none
    originalError := none
    code := some 11000
    keyValue := ["email"]
    errors := [some "Path `email` is required."]
    path := none
    stack := "ValidationError: User validation failed" }

/-- A failure matching both the cast shape (name `CastError`) and the
duplicate-key shape (`code` 11000). -/
def castDupError : JsError :=
  { isAppError := false
    message := "Cast to ObjectId failed"
    name := "CastError"
    statusCode := none
    isOperational := none
    originalError := none
    code := some 11000
    keyValue := ["username"]
    errors := []
    path := some "_id"
    stack := "CastError: Cast to ObjectId failed" }

/-- C5: every non-taxonomy failure carrying conflict code 11000 renders as
status 400 with the message listing the offending field names followed by
" field has to be unique", whatever other shape it has. -/
theorem c5_duplicate_key (err : JsError) (req : Request) (env now : String)
    (h1 : err.isAppError = false) (h2 : err.code = some 11000) :
    (errorHandlerMiddleware err req env now).status = 400 ∧
    (errorHandlerMiddleware err req env now).message =
      String.intercalate "," err.keyValue ++ " field has to be unique" := by
  constructor <;>
    simp [errorHandlerMiddleware, duplicateMessage, h1, h2]

/-- C5 witness: a uniqueness violation on the field `email` renders as status
400 with the message "email field has to be unique", which contains "email"
and "unique". -/
theorem c5_witness :
    (errorHandlerMiddleware emailDupError
        { originalUrl := "/api/users", url := "/api/users" }
        "production" "t0").status = 400 ∧
    (errorHandlerMiddleware emailDupError
        { originalUrl := "/api/users", url := "/api/users" }
        "production" "t0").message = "email field has to be unique" := by
  have h := c5_duplicate_key emailDupError
    { originalUrl := "/api/users", url := "/api/users" } "production" "t0"
    rfl rfl
  exact ⟨h.1, h.2.trans (by decide)⟩

/-- C6 counterexample: the claim says every non-taxonomy failure with the
validation-error shape renders with status forced to 500; a failure with
name `ValidationError` that also carries conflict code 11000 renders with
status 400, because the duplicate-key check runs later and overwrites. -/
theorem c6_counterexample :
    validationDupError.isAppError = false ∧
    validationDupError.name = "ValidationError" ∧
    validationDupError.errors ≠ [] ∧
    (errorHandlerMiddleware validationDupError
        { originalUrl := "/u", url := "/u" } "production" "t0").status = 400 ∧
    (errorHandlerMiddleware validationDupError
        { originalUrl := "/u", url := "/u" } "production" "t0").status ≠ 500 := by
  refine ⟨rfl, rfl, by decide, by decide, by decide⟩

/-- C6 amended: every non-taxonomy failure with the validation-error shape
that does not also carry conflict code 11000 renders with all sub-error
messages collapsed into one comma-joined string and status forced to 500,
not 400; a failure that also carries code 11000 is instead classified by the
later duplicate-key check. -/
theorem c6_validation_shape (err : JsError) (req : Request) (env now : String)
    (h1 : err.isAppError = false) (h2 : err.name = "ValidationError")
    (h3 : err.code ≠ some 11000) :
    (errorHandlerMiddleware err req env now).status = 500 ∧
    (errorHandlerMiddleware err req env now).message =
      String.intercalate "," (err.errors.map (fun o => o.getD "")) := by
  constructor <;>
    simp [errorHandlerMiddleware, validationMessage, h1, h2, h3]

/-- C6 witness: a validation failure with sub-errors on `email` and `age`
renders as status 500 with the two sub-messages joined by a comma. -/
theorem c6_witness :
    (errorHandlerMiddleware plainValidationError
        { originalUrl := "/u", url := "/u" } "production" "t0").status = 500 ∧
    (errorHandlerMiddleware plainValidationError
        { originalUrl := "/u", url := "/u" } "production" "t0").message =
      "Path `email` is required.,Path `age` is invalid." := by
  have h := c6_validation_shape plainValidationError
    { originalUrl := "/u", url := "/u" } "production" "t0"
    rfl rfl (by decide)
  exact ⟨h.1, h.2.trans (by decide)⟩

/-- C10: the duplicate-key check runs after the name-based checks and is not
exclusive with them: every non-taxonomy failure whose name is
`ValidationError` or `CastError` and which also carries conflict code 11000
gets the uniqueness classification, status 400 and the
" field has to be unique" message, overwriting the earlier one. -/
theorem c10_duplicate_overrides (err : JsError) (req : Request)
    (env now : String) (h1 : err.isAppError = false)
    (h2 : err.name = "ValidationError" ∨ err.name = "CastError")
    (h3 : err.code = some 11000) :
    (errorHandlerMiddleware err req env now).status = 400 ∧
    (errorHandlerMiddleware err req env now).message =
      String.intercalate "," err.keyValue ++ " field has to be unique" := by
  constructor <;>
    simp [errorHandlerMiddleware, duplicateMessage, h1, h3]

/-- C10 witness: a failure with name `CastError` and code 11000 on the field
`username` renders with the uniqueness classification, not the cast one. -/
theorem c10_witness :
    (errorHandlerMiddleware castDupError
        { originalUrl := "/u", url := "/u" } "production" "t0").status = 400 ∧
    (errorHandlerMiddleware castDupError
        { originalUrl := "/u", url := "/u" } "production" "t0").message =
      "username field has to be unique" := by
  have h := c10_duplicate_overrides castDupError
    { originalUrl := "/u", url := "/u" } "production" "t0"
    rfl (Or.inr rfl) rfl
  exact ⟨h.1, h.2.trans (by decide)⟩

/-- An uncaught generic runtime failure with message "disk full": a plain
`Error`, no taxonomy pedigree and no recognizable structural shape. -/
def diskFullError : JsError :=
  { isAppError := false
    message := "disk full"
    name := "Error"
    statusCode := none
    isOperational := none
    originalError := none
    code := none
    keyValue := []
    errors := []
    path := none
    stack := "Error: disk full\n    at write" }

/-- A non-taxonomy failure that carries its own `statusCode` property, as
body-parser and other Express-ecosystem errors do (here 413), with no
recognizable structural shape. -/
def payloadTooLargeError : JsError :=
  { isAppError := false
    message := "request entity too large"
    name := "PayloadTooLargeError"
    statusCode := some 413
    isOperational := none
    originalError := none
    code := none
    keyValue := []
    errors := []
    path := none
    stack := "PayloadTooLargeError: request entity too large" }

/-- C7: for every non-taxonomy failure with a non-empty captured stack, the
response rendered in development mode carries a non-empty stack field, and
the response rendered in any other mode (production included) has no stack
field at all. -/
theorem c7_stack_trace_mode (err : JsError) (req : Request) (env now : String)
    (h1 : err.isAppError = false) (h2 : err.stack ≠ "") :
    (∃ s, (errorHandlerMiddleware err req "development" now).stack = some s ∧
      s ≠ "") ∧
    (env ≠ "development" →
      (errorHandlerMiddleware err req env now).stack = none) := by
  constructor
  · exact ⟨err.stack, by simp [errorHandlerMiddleware, h1], h2⟩
  · intro henv
    simp [errorHandlerMiddleware, h1, henv]

/-- C7 witness: the "disk full" failure rendered in development mode has a
non-empty stack field; rendered in production mode it has none. -/
theorem c7_witness :
    (∃ s, (errorHandlerMiddleware diskFullError
        { originalUrl := "/u", url := "/u" } "development" "t0").stack = some s ∧
      s ≠ "") ∧
    (errorHandlerMiddleware diskFullError
        { originalUrl := "/u", url := "/u" } "production" "t0").stack = none := by
  have h := c7_stack_trace_mode diskFullError
    { originalUrl := "/u", url := "/u" } "production" "t0" rfl (by decide)
  exact ⟨h.1, h.2 (by decide)⟩

/-- C8 counterexample: the claim says every non-taxonomy failure matching no
structural shape renders with status 500; a failure carrying its own nonzero
`statusCode` property (here 413) renders with that status instead, because
the default classification reads `statusCode || 500` off the raw error. -/
theorem c8_counterexample :
    payloadTooLargeError.isAppError = false ∧
    payloadTooLargeError.name ≠ "ValidationError" ∧
    payloadTooLargeError.name ≠ "CastError" ∧
    payloadTooLargeError.code = none ∧
    (errorHandlerMiddleware payloadTooLargeError
        { originalUrl := "/u", url := "/u" } "production" "t0").status = 413 ∧
    (errorHandlerMiddleware payloadTooLargeError
        { originalUrl := "/u", url := "/u" } "production" "t0").status ≠ 500 := by
  refine ⟨rfl, by decide, by decide, rfl, by decide, by decide⟩

/-- C8 amended: for every non-taxonomy failure matching none of the
structural-recognition shapes, the rendered status is the failure's own
`statusCode` property when present and nonzero, and 500 otherwise (in
particular 500 whenever the property is absent); the message is the failure's
own message, or the generic fallback string when empty; the path is the raw
request URL with no `/api` prefix stripped. -/
theorem c8_unclassified_fallback (err : JsError) (req : Request)
    (env now : String) (h1 : err.isAppError = false)
    (h2 : err.name ≠ "ValidationError") (h3 : err.name ≠ "CastError")
    (h4 : err.code ≠ some 11000) :
    (errorHandlerMiddleware err req env now).status = fallbackStatus err ∧
    (err.statusCode = none →
      (errorHandlerMiddleware err req env now).status = 500) ∧
    (errorHandlerMiddleware err req env now).message = fallbackMessage err ∧
    (err.message = "" →
      (errorHandlerMiddleware err req env now).message =
        "Something went wrong, try again later") ∧
    (errorHandlerMiddleware err req env now).path = req.url := by
  refine ⟨?_, ?_, ?_, ?_, ?_⟩
  · simp [errorHandlerMiddleware, h1, h2, h3, h4]
  · intro hsc
    simp [errorHandlerMiddleware, fallbackStatus, h1, h2, h3, h4, hsc]
  · simp [errorHandlerMiddleware, h1, h2, h3, h4]
  · intro hmsg
    simp [errorHandlerMiddleware, fallbackMessage, h1, h2, h3, h4, hmsg]
  · simp [errorHandlerMiddleware, h1]

/-- C8 witness: the "disk full" failure in production mode renders with
status 500, its own message verbatim, and the raw request URL as path. -/
theorem c8_witness :
    (errorHandlerMiddleware diskFullError
        { originalUrl := "/api/u", url := "/api/u" } "production" "t0").status
      = 500 ∧
    (errorHandlerMiddleware diskFullError
        { originalUrl := "/api/u", url := "/api/u" } "production" "t0").message
      = "disk full" ∧
    (errorHandlerMiddleware diskFullError
        { originalUrl := "/api/u", url := "/api/u" } "production" "t0").path
      = "/api/u" := by
  have h := c8_unclassified_fallback diskFullError
    { originalUrl := "/api/u", url := "/api/u" } "production" "t0"
    rfl (by decide) (by decide) (by decide)
  exact ⟨h.2.1 rfl, h.2.2.1.trans (by decide), h.2.2.2.2⟩
